import Mathlib

/-!
Verification development for the `atscale-gatling` controller
(`atscalewrapper/core.py`, class `AtScaleGatlingCore`).

The Python code is shallowly embedded: the configuration is an association
list of string keys to string values (`dict.get` returns an `Option`,
`dict[k]` raises `KeyError` when the key is absent, and Python truthiness of
an optional string is "present and non-empty"); the properties writer is
modelled as the ordered sequence of lines passed to `f.write` (each source
`f.write` emits exactly one `"...\n"` chunk), together with the first
uncaught exception if one is raised mid-write; file-system effects are
explicit state passing on the file's previous contents.
-/

namespace AtScaleGatling

/-- Python exceptions that the embedded code can raise. -/
inductive PyError where
  | valueError (msg : String)
  | indexError
  | keyError (key : String)
  | attributeError (attr : String)
  deriving Repr, DecidableEq

/-- A configuration: the JSON object `self.cfg`, as an association list. -/
abbrev Config := List (String × String)

/-- Python `self.cfg.get(k)` / `k in self.cfg`: first binding of `k`, if any. -/
def cfgLookup (cfg : Config) (k : String) : Option String :=
  match cfg.find? (fun p => p.1 == k) with
  | some p => some p.2
  | none => none

/-- Python `self.cfg.get(k, "")`. -/
def cfgGetD (cfg : Config) (k : String) : String :=
  (cfgLookup cfg k).getD ""

/-- Python truthiness of `self.cfg.get(k)`: key present with non-empty value. -/
def cfgTruthy (cfg : Config) (k : String) : Bool :=
  match cfgLookup cfg k with
  | some v => v != ""
  | none => false

/-- Python `str(b).lower()` for a bool. -/
def pyBoolStr (b : Bool) : String := if b then "true" else "false"

/-! Python string primitives (`str.split`, `str.replace`, `str.strip`),
implemented over the underlying character lists with a structural fuel
argument (the input length bounds the recursion) so that they evaluate
inside the kernel. -/

/-- Worker for `str.split(sep)` with a non-empty separator: scan left to
right, cutting at each non-overlapping occurrence of `sep`; `acc` holds the
current field reversed. -/
def pySplitAux (sep : List Char) : Nat → List Char → List Char → List (List Char)
  | _, [], acc => [acc.reverse]
  | 0, s, acc => [acc.reverse ++ s]
  | fuel + 1, c :: rest, acc =>
    if sep.isPrefixOf (c :: rest) then
      acc.reverse :: pySplitAux sep fuel ((c :: rest).drop sep.length) []
    else
      pySplitAux sep fuel rest (c :: acc)

/-- Python `s.split(sep)` for a non-empty separator. -/
def pySplit (s sep : String) : List String :=
  (pySplitAux sep.data s.data.length s.data []).map String.mk

/-- Worker for `str.replace(pat, rep)`: replace each non-overlapping
occurrence of `pat`, left to right. -/
def pyReplaceAux (pat rep : List Char) : Nat → List Char → List Char
  | _, [] => []
  | 0, s => s
  | fuel + 1, c :: rest =>
    if pat.isPrefixOf (c :: rest) then
      rep ++ pyReplaceAux pat rep fuel ((c :: rest).drop pat.length)
    else
      c :: pyReplaceAux pat rep fuel rest

/-- Python `s.replace(pat, rep)` for a non-empty pattern. -/
def pyReplace (s pat rep : String) : String :=
  String.mk (pyReplaceAux pat.data rep.data s.data.length s.data)

/-- Python `s.strip()`: drop leading and trailing whitespace. -/
def pyStrip (s : String) : String :=
  String.mk
    (((s.data.dropWhile Char.isWhitespace).reverse.dropWhile
        Char.isWhitespace).reverse)

/-- One entry of the `file_assignments` dict (CSV mode), with the
`assignment.get(key, default)` defaults applied. -/
structure FileAssignment where
  jdbc_file : String := ""
  xmla_file : String := ""
  jdbc_has_header : Bool := true
  xmla_has_header : Bool := true
  deriving Repr, DecidableEq

/-- The `file_assignments` dict; `[]` plays the role of both `None` and the
empty dict (the function only tests truthiness and membership, on which the
two agree). -/
abbrev FileAssignments := List (String × FileAssignment)

def faLookup (fa : FileAssignments) (pair : String) : Option FileAssignment :=
  match fa.find? (fun p => p.1 == pair) with
  | some p => some p.2
  | none => none

/-- Result of running a fragment of the writer's body: the lines written so
far (each one `f.write(line + "\n")` payload) and the exception that aborted
the fragment, if any. -/
abbrev WOut := List String × Option PyError

/-- Write some lines, no exception. -/
def wPure (ls : List String) : WOut := (ls, none)

/-- Sequence two fragments: the second runs only if the first did not raise. -/
def wSeq (a b : WOut) : WOut :=
  match a with
  | (ls, some e) => (ls, some e)
  | (ls, none) => (ls ++ b.1, b.2)

/-- Python `self.cfg[k]`: continue with the value, or raise `KeyError`. -/
def wKey (cfg : Config) (k : String) (f : String → WOut) : WOut :=
  match cfgLookup cfg k with
  | some v => f v
  | none => ([], some (.keyError k))

/-- The parts of `pair.split("::")`, each `.strip()`ped
(`core.py:194`). -/
def splitPairParts (pair : String) : List String :=
  (pySplit pair "::").map pyStrip

/-- Python `pair.split("::")[0].strip()` (`core.py:178`); total because
`str.split` always returns at least one part. -/
def firstPart (pair : String) : String :=
  pyStrip
    (match pySplit pair "::" with
     | [] => ""
     | a :: _ => a)

/-- A pair string is malformed for `pair.split("::")[1]` (`core.py:177`)
when splitting yields fewer than two parts. -/
def shortPair (pair : String) : Bool :=
  decide ((pySplit pair "::").length < 2)

/-- The sanitized cube key of a selected pair:
`cube.replace(" ", "_")` after parsing (`core.py:194-195`). -/
def cubeKeyOf (pair : String) : String :=
  pyReplace ((splitPairParts pair).getD 1 "") " " "_"

/-- The CSV override lines for the JDBC block of one pair
(`core.py:206-215`). -/
def csvJdbcLines (fa : FileAssignments) (pair cube_key : String) : List String :=
  if fa.isEmpty then []
  else
    match faLookup fa pair with
    | none => []
    | some a =>
      if a.jdbc_file == "" then []
      else
        ["atscale." ++ cube_key ++ ".jdbc.setIngestionFileName=" ++ a.jdbc_file,
         "atscale." ++ cube_key ++ ".jdbc.setIngestionFileHasHeader=" ++
           pyBoolStr a.jdbc_has_header]

/-- The CSV override lines for the XMLA block of one pair
(`core.py:226-233`). -/
def csvXmlaLines (fa : FileAssignments) (pair cube_key : String) : List String :=
  if fa.isEmpty then []
  else
    match faLookup fa pair with
    | none => []
    | some a =>
      if a.xmla_file == "" then []
      else
        ["atscale." ++ cube_key ++ ".xmla.setIngestionFileName=" ++ a.xmla_file,
         "atscale." ++ cube_key ++ ".xmla.setIngestionFileHasHeader=" ++
           pyBoolStr a.xmla_has_header]

/-- The block the loop body of `write_systems_properties_with_csv`
(`core.py:193-235`) writes for one selected pair, including the exceptions
it can raise (`ValueError` on tuple unpacking of a pair that does not split
into exactly two parts, `KeyError` on a missing configuration key, each
raised after the lines already written). -/
def pairBlock (cfg : Config) (fa : FileAssignments) (pair : String) : WOut :=
  match splitPairParts pair with
  | [catalog, cube] =>
    let cube_key := pyReplace cube " " "_"
    let catalog_jdbc_name := pyReplace catalog " " "%20"
    wSeq (wPure ["# " ++ catalog ++ " :: " ++ cube])
    (wKey cfg "host" fun host =>
     wSeq (wPure ["atscale." ++ cube_key ++ ".jdbc.url=jdbc:postgresql://" ++
                    host ++ ":15432/" ++ catalog_jdbc_name])
     (wKey cfg "username" fun username =>
      wSeq (wPure ["atscale." ++ cube_key ++ ".jdbc.username=" ++ username])
      (wKey cfg "password" fun password =>
       wSeq (wPure
         (["atscale." ++ cube_key ++ ".jdbc.password=" ++ password,
           "atscale." ++ cube_key ++ ".jdbc.maxPoolSize=10",
           "atscale." ++ cube_key ++ ".jdbc.log.resultset.rows=true"] ++
          csvJdbcLines fa pair cube_key ++
          ["atscale." ++ cube_key ++ ".xmla.auth.url=https://" ++ host ++
             ":10500/default/auth"]))
       (wKey cfg "token" fun token =>
        wPure
          (["atscale." ++ cube_key ++ ".xmla.url=https://" ++ host ++
              ":10502/xmla/default/" ++ token,
            "atscale." ++ cube_key ++ ".xmla.cube=" ++ cube,
            "atscale." ++ cube_key ++ ".xmla.catalog=" ++ catalog,
            "atscale." ++ cube_key ++ ".xmla.log.responsebody=true",
            "atscale." ++ cube_key ++ ".xmla.auth.username=" ++ username,
            "atscale." ++ cube_key ++ ".xmla.auth.password=" ++ password] ++
           csvXmlaLines fa pair cube_key ++
           ["# "])))))
  | _ => ([], some (.valueError "not enough values to unpack"))

/-- The per-pair loop of the writer (`core.py:193-235`): blocks in
selection order, aborting at the first exception. -/
def pairsLoop (cfg : Config) (fa : FileAssignments) : List String → WOut
  | [] => ([], none)
  | p :: rest => wSeq (pairBlock cfg fa p) (pairsLoop cfg fa rest)

/-- An optional configuration-driven line `k=v` emitted iff
`self.cfg.get(k)` is truthy (`core.py:252-269,272-273`). -/
def optLine (cfg : Config) (k : String) : List String :=
  match cfgLookup cfg k with
  | some v => if v == "" then [] else [k ++ "=" ++ v]
  | none => []

/-- Lines `core.py:270-271`: the guard tests `snowflake.archive.password` but the
written value is `self.cfg['snowflake.archive.token']` (bracket access,
raising `KeyError` when that key is absent). -/
def snowPasswordLines (cfg : Config) : WOut :=
  if cfgTruthy cfg "snowflake.archive.password" then
    wKey cfg "snowflake.archive.token" fun tok =>
      wPure ["snowflake.archive.password=" ++ tok]
  else ([], none)

/-- The fixed tuning block (`core.py:240-249`). -/
def tuningLines : List String :=
  ["#System Parameter",
   "atscale.gatling.throttle.ms=5",
   "atscale.xmla.maxConnectionsPerHost=20",
   "atscale.xmla.useAggregates=true",
   "atscale.xmla.generateAggregates=false",
   "atscale.xmla.useQueryCache=false",
   "atscale.xmla.useAggregateCache=true",
   "atscale.jdbc.useAggregates=true",
   "atscale.jdbc.generateAggregates=false",
   "atscale.jdbc.useLocalCache=false"]

/-- The tail of the writer after the per-pair loop
(`core.py:237-273`): postgres block, tuning constants, optional AWS and
Snowflake blocks. -/
def tailSection (cfg : Config) : WOut :=
  wKey cfg "postgres_host" fun pg =>
  wSeq (wPure
    (["atscale.postgres.jdbc.url=jdbc:postgresql://" ++ pg ++ ":10520/atscale",
      "atscale.postgres.jdbc.username=atscale",
      "atscale.postgres.jdbc.password=atscale"] ++
     tuningLines ++
     optLine cfg "aws.region" ++
     optLine cfg "aws.secrets-key" ++
     optLine cfg "snowflake.archive.account" ++
     optLine cfg "snowflake.archive.warehouse" ++
     optLine cfg "snowflake.archive.database" ++
     optLine cfg "snowflake.archive.schema" ++
     optLine cfg "snowflake.archive.role" ++
     optLine cfg "snowflake.archive.username"))
  (wSeq (snowPasswordLines cfg)
        (wPure (optLine cfg "snowflake.archive.token")))

/-- The two header lines (`core.py:184-189`): schema mode depends on the
truthiness of `file_assignments`. -/
def headerLines (fa : FileAssignments) : List String :=
  if fa.isEmpty then
    ["# Live Mode - Executors will make live JDBC/XMLA calls",
     "atscale.schema.type=installer"]
  else
    ["# CSV Mode - Executors will read from CSV files",
     "atscale.schema.type=ingestion"]

/-- The `atscale.models=` line (`core.py:191`): the catalog of every
selected pair (first split part, stripped), in selection order, joined
with `", "`. -/
def modelsLine (selected_pairs : List String) : String :=
  "atscale.models=" ++ String.intercalate ", " (selected_pairs.map firstPart)

/-- Everything written between `open` and close when the validation and the
pre-scan of `core.py:177-178` have passed: the body of the `with` block of
`write_systems_properties_with_csv`. -/
def wspBody (cfg : Config) (selected_pairs : List String)
    (fa : FileAssignments) : WOut :=
  wSeq (wPure (headerLines fa ++ [modelsLine selected_pairs]))
  (wSeq (pairsLoop cfg fa selected_pairs) (tailSection cfg))

/-- Method `write_systems_properties_with_csv` (`core.py:172-276`): the lines
written to `working_dir/config/systems.properties` and the exception raised,
if any.  The empty-selection `ValueError` (`core.py:174-175`) and the
`IndexError` of the `cubes` comprehension (`core.py:177`) both occur before
the file is opened, so they write nothing. -/
def write_systems_properties_with_csv (cfg : Config)
    (selected_pairs : List String) (fa : FileAssignments) : WOut :=
  if selected_pairs.isEmpty then
    ([], some (.valueError "No catalog/cube pairs selected"))
  else if selected_pairs.any shortPair then
    ([], some .indexError)
  else
    wspBody cfg selected_pairs fa

/-- Join written lines into the byte contents of the file (`f.write` adds a
trailing newline to every line). -/
def joinLines (ls : List String) : String :=
  ls.foldr (fun l acc => l ++ "\n" ++ acc) ""

/-- The file-system effect of one call to
`write_systems_properties_with_csv` on the contents of
`working_dir/config/systems.properties` (`none` = file absent): exceptions
raised before `open` leave the file untouched; `open(filepath, "w")`
truncates, so afterwards the file holds exactly the lines written before
returning or raising.  Returns the new contents and the raised exception. -/
def wspFile (prev : Option String) (cfg : Config)
    (selected_pairs : List String) (fa : FileAssignments) :
    Option String × Option PyError :=
  if selected_pairs.isEmpty then
    (prev, some (.valueError "No catalog/cube pairs selected"))
  else if selected_pairs.any shortPair then
    (prev, some .indexError)
  else
    let w := wspBody cfg selected_pairs fa
    (some (joinLines w.1), w.2)

/-! ## Executor launcher (`run_executor`, `build_docker_command`) -/

/-- The fixed executor list (`core.py:56-66`). -/
def executors : List String :=
  ["InstallerVerQueryExtractExecutor",
   "CustomQueryExtractExecutor",
   "QueryExtractExecutor",
   "OpenStepConcurrentSimulationExecutor",
   "ClosedStepConcurrentSimulationExecutor",
   "OpenStepSequentialSimulationExecutor",
   "ClosedStepSequentialSimulationExecutor",
   "ArchiveJdbcToSnowflake",
   "ArchiveXmlaToSnowflake"]

def DOCKER_IMAGE : String := "rwidjaja/atscale-gatling:latest"

/-- The two warehouse-archive executors (`core.py:295`). -/
def archiveExecutors : List String :=
  ["ArchiveJdbcToSnowflake", "ArchiveXmlaToSnowflake"]

/-- Method `build_docker_command` (`core.py:278-305`).  `cwd` is `os.getcwd()`;
`cacertsPresent` is `os.path.isfile(os.path.join(os.getcwd(), "cacerts"))`. -/
def build_docker_command (cfg : Config) (cwd : String) (cacertsPresent : Bool)
    (executor_name : String) : List String :=
  let cmd :=
    ["docker", "run", "--rm", "--platform", "linux/amd64",
     "-v", cwd ++ "/working_dir:/app/working_dir",
     "-v", cwd ++ "/config.json:/app/config.json"]
  let cmd :=
    if cacertsPresent then
      cmd ++ ["-v", cwd ++ "/cacerts:/app/cacerts",
              "-e", "JAVA_TOOL_OPTIONS=-Djavax.net.ssl.trustStore=/app/cacerts -Djavax.net.ssl.trustStorePassword=changeit"]
    else cmd
  let proxy_host := cfgGetD cfg "proxy"
  let proxy_port := cfgGetD cfg "proxyport"
  let cmd :=
    if executor_name ∈ archiveExecutors ∧ proxy_host ≠ "" ∧ proxy_port ≠ "" then
      cmd ++ ["-e", "HTTP_PROXY=http://" ++ proxy_host ++ ":" ++ proxy_port,
              "-e", "HTTPS_PROXY=http://" ++ proxy_host ++ ":" ++ proxy_port]
    else cmd
  cmd ++ [DOCKER_IMAGE, executor_name, "working_dir/config/systems.properties"]

/-- The mutable run-tracking attributes of `AtScaleGatlingCore`
(`core.py:68-70`). -/
structure RunState where
  is_running : Bool
  current_executor : Option String
  current_process : Option Nat
  deriving Repr, DecidableEq

/-- Observable outcome of one `run_executor` call (`core.py:321-367`). -/
structure RunOutcome where
  /-- The returned boolean. -/
  success : Bool
  /-- Whether the call was rejected on the `self.is_running` guard
  (`core.py:323-325`). -/
  rejectedAlreadyRunning : Bool
  /-- The exception caught by the `except` clause (`core.py:363`), if any. -/
  caught : Option PyError
  /-- Whether the properties file was (re)written during the call. -/
  wroteProperties : Bool
  /-- Whether the per-executor log file was opened (truncated). -/
  openedLogFile : Bool
  /-- Whether a subprocess was spawned (`subprocess.Popen`, `core.py:347`). -/
  spawnedProcess : Bool
  deriving Repr, DecidableEq

/-- Method `run_executor` (`core.py:321-367`).  The guard path returns `False`
with the state untouched.  On the non-guard path the first statement of the
`try` block is `self.write_systems_properties(selected_pairs)`
(`core.py:332`); class `AtScaleGatlingCore` defines
`write_systems_properties_with_csv` and `write_csv_systems_properties` but
no attribute `write_systems_properties`, so this lookup raises
`AttributeError`, the `except` clause prints and returns `False`, and the
`finally` clause resets `is_running`.  The remaining statements of the
`try` block (`ensure_docker_image`, opening the log file, `Popen`, waiting)
are unreachable, so `run_executor` never writes the properties file, never
opens the log file and never spawns a process. -/
def run_executor (st : RunState) (executor_name : String)
    (selected_pairs : List String) : RunOutcome × RunState :=
  if st.is_running then
    ({ success := false, rejectedAlreadyRunning := true, caught := none,
       wroteProperties := false, openedLogFile := false,
       spawnedProcess := false }, st)
  else
    ({ success := false, rejectedAlreadyRunning := false,
       caught := some (.attributeError "write_systems_properties"),
       wroteProperties := false, openedLogFile := false,
       spawnedProcess := false },
     { st with is_running := false,
               current_executor := some executor_name })

/-! ## Cooperative stop signal (`stop_simulation`, `cancel_stop_signal`) -/

/-- Method `stop_simulation` (`core.py:403-413`) acting on the contents of
`working_dir/control/stop_simulation` (`none` = file absent); `now` is
`str(datetime.now())`.  Returns the new file state and the returned bool. -/
def stop_simulation (_fs : Option String) (now : String) :
    Option String × Bool :=
  (some ("Stop signal at " ++ now), true)

/-- Method `cancel_stop_signal` (`core.py:415-426`): removes the sentinel if
present, returning whether removal occurred. -/
def cancel_stop_signal (fs : Option String) : Option String × Bool :=
  match fs with
  | some _ => (none, true)
  | none => (none, false)

/-! ## Auxiliary notions used in the statements -/

/-- Whether a written line begins with the pattern `pat`, at the level of
the underlying character lists. -/
def lineStartsWith (l pat : String) : Bool :=
  pat.data.isPrefixOf l.data

/-- The configuration of the end-to-end live-mode scenario. -/
def cfgScenario : Config :=
  [("host", "h"), ("username", "u"), ("password", "p"),
   ("token", "t"), ("postgres_host", "pg")]

/-- A configuration with a proxy host and port set. -/
def cfgProxy : Config := [("proxy", "ph"), ("proxyport", "80")]

/-- The scenario configuration extended with a Snowflake archive password
and token. -/
def cfgSnow : Config :=
  [("host", "h"), ("username", "u"), ("password", "p"),
   ("token", "t"), ("postgres_host", "pg"),
   ("snowflake.archive.password", "secret"),
   ("snowflake.archive.token", "TOK")]

/-- The scenario configuration extended with a Snowflake archive password
but no token key. -/
def cfgSnowNoTok : Config :=
  [("host", "h"), ("username", "u"), ("password", "p"),
   ("token", "t"), ("postgres_host", "pg"),
   ("snowflake.archive.password", "secret")]

/-- The parsed catalog of a selected pair (`pair.split("::")[0].strip()`). -/
def catalogOf (pair : String) : String :=
  (splitPairParts pair).getD 0 ""

/-- The parsed cube of a selected pair (`pair.split("::")[1].strip()`). -/
def cubeOf (pair : String) : String :=
  (splitPairParts pair).getD 1 ""

/-- The lines of one pair block on the happy path (pair splits into exactly
two parts, the four core configuration keys `host`/`username`/`password`/
`token` present with values `h`/`u`/`pw`/`t`): a refinement-level
restatement of `pairBlock`, proved equal to it in `pairBlock_ok`. -/
def blockLines (fa : FileAssignments) (pair catalog cube h u pw t : String) :
    List String :=
  ["# " ++ (catalog ++ (" :: " ++ cube)),
   "atscale." ++ pyReplace cube " " "_" ++
     (".jdbc.url=jdbc:postgresql://" ++
       (h ++ (":15432/" ++ pyReplace catalog " " "%20"))),
   "atscale." ++ pyReplace cube " " "_" ++ (".jdbc.username=" ++ u),
   "atscale." ++ pyReplace cube " " "_" ++ (".jdbc.password=" ++ pw),
   "atscale." ++ pyReplace cube " " "_" ++ ".jdbc.maxPoolSize=10",
   "atscale." ++ pyReplace cube " " "_" ++ ".jdbc.log.resultset.rows=true"] ++
  csvJdbcLines fa pair (pyReplace cube " " "_") ++
  ["atscale." ++ pyReplace cube " " "_" ++
     (".xmla.auth.url=https://" ++ (h ++ ":10500/default/auth")),
   "atscale." ++ pyReplace cube " " "_" ++
     (".xmla.url=https://" ++ (h ++ (":10502/xmla/default/" ++ t))),
   "atscale." ++ pyReplace cube " " "_" ++ (".xmla.cube=" ++ cube),
   "atscale." ++ pyReplace cube " " "_" ++ (".xmla.catalog=" ++ catalog),
   "atscale." ++ pyReplace cube " " "_" ++ ".xmla.log.responsebody=true",
   "atscale." ++ pyReplace cube " " "_" ++ (".xmla.auth.username=" ++ u),
   "atscale." ++ pyReplace cube " " "_" ++ (".xmla.auth.password=" ++ pw)] ++
  csvXmlaLines fa pair (pyReplace cube " " "_") ++
  ["# "]

/-! ## General lemmas about the embedding -/

theorem lineStartsWith_iff (l pat : String) :
    lineStartsWith l pat = true ↔ pat.data <+: l.data := by
  simp [lineStartsWith, List.isPrefixOf_iff_prefix]

theorem lineStartsWith_eq_false_iff (l pat : String) :
    lineStartsWith l pat = false ↔ ¬ pat.data <+: l.data := by
  rw [← lineStartsWith_iff]
  cases h : lineStartsWith l pat <;> simp [h]

/-- If `pat` is neither a prefix of `fixed` nor an extension of it, then it
is not a prefix of `fixed ++ v`, whatever `v` is. -/
theorem not_prefix_append_of_disagree {α : Type} {pat fixed v : List α}
    (h1 : ¬ pat <+: fixed) (h2 : ¬ fixed <+: pat) : ¬ pat <+: (fixed ++ v) := by
  intro h
  rcases List.prefix_or_prefix_of_prefix h (List.prefix_append fixed v) with h' | h'
  · exact h1 h'
  · exact h2 h'

/-- A pattern containing `'='` but not the character `c0` is never a prefix
of `ck ++ s` when `ck` is free of `'='` and `s` starts with `c0`. -/
theorem not_prefix_mid (c0 : Char) (s : List Char) (hs : s.head? = some c0) :
    ∀ (ck pat : List Char), '=' ∈ pat → c0 ∉ pat → '=' ∉ ck →
      ¬ pat <+: ck ++ s := by
  intro ck
  induction ck with
  | nil =>
    intro pat hpe hpc _ hpre
    cases pat with
    | nil => simp at hpe
    | cons p pt =>
      cases s with
      | nil => simp at hs
      | cons b t =>
        simp only [List.head?_cons, Option.some.injEq] at hs
        rw [List.nil_append] at hpre
        rcases List.cons_prefix_cons.mp hpre with ⟨rfl, -⟩
        exact hpc (hs ▸ List.mem_cons_self _ _)
  | cons a ckt ih =>
    intro pat hpe hpc hck hpre
    cases pat with
    | nil => simp at hpe
    | cons p pt =>
      rw [List.cons_append] at hpre
      rcases List.cons_prefix_cons.mp hpre with ⟨rfl, hpre'⟩
      rcases List.mem_cons.mp hpe with heq | hmem
      · exact hck (heq ▸ List.mem_cons_self _ _)
      · exact ih pt hmem (fun hc => hpc (List.mem_cons_of_mem _ hc))
          (fun hc => hck (List.mem_cons_of_mem _ hc)) hpre'

/-- Function `lineStartsWith` is false on `fixed ++ v` whenever it is false on the
`fixed` part and `fixed` does not extend to the pattern. -/
theorem lineStartsWith_concat_false (pat fixed v : String)
    (h1 : lineStartsWith fixed pat = false)
    (h2 : lineStartsWith pat fixed = false) :
    lineStartsWith (fixed ++ v) pat = false := by
  rw [lineStartsWith_eq_false_iff] at h1 h2 ⊢
  rw [String.data_append]
  exact not_prefix_append_of_disagree h1 h2

theorem lineStartsWith_concat_true (pat v : String) :
    lineStartsWith (pat ++ v) pat = true := by
  rw [lineStartsWith_iff, String.data_append]
  exact List.prefix_append _ _

theorem wSeq_fst_of_none {a b : WOut} (h : a.2 = none) :
    (wSeq a b).1 = a.1 ++ b.1 := by
  rcases a with ⟨ls, e⟩
  cases e with
  | none => rfl
  | some e => simp at h

theorem wSeq_snd_of_none {a b : WOut} (h : a.2 = none) :
    (wSeq a b).2 = b.2 := by
  rcases a with ⟨ls, e⟩
  cases e with
  | none => rfl
  | some e => simp at h

theorem wSeq_of_none {a b : WOut} (h : a.2 = none) :
    wSeq a b = (a.1 ++ b.1, b.2) := by
  rcases a with ⟨ls, e⟩
  cases e with
  | none => rfl
  | some e => simp at h

/-- With a non-empty selection of well-formed pairs, the two pre-`open`
validation steps pass and the writer runs its body. -/
theorem wsp_eq_body (cfg : Config) (pairs : List String) (fa : FileAssignments)
    (hne : pairs ≠ [])
    (hwf : ∀ p ∈ pairs, (pySplit p "::").length = 2) :
    write_systems_properties_with_csv cfg pairs fa = wspBody cfg pairs fa := by
  have h1 : pairs.isEmpty = false := by
    cases pairs with
    | nil => exact absurd rfl hne
    | cons a l => rfl
  have h2 : pairs.any shortPair = false := by
    rw [List.any_eq_false]
    intro p hp
    simp [shortPair, hwf p hp]
  simp [write_systems_properties_with_csv, h1, h2]

/-- On the happy path a pair block raises nothing and writes exactly
`blockLines`. -/
theorem pairBlock_ok (cfg : Config) (fa : FileAssignments)
    (p catalog cube h u pw t : String)
    (hp : splitPairParts p = [catalog, cube])
    (hh : cfgLookup cfg "host" = some h)
    (hu : cfgLookup cfg "username" = some u)
    (hpw : cfgLookup cfg "password" = some pw)
    (ht : cfgLookup cfg "token" = some t) :
    pairBlock cfg fa p = (blockLines fa p catalog cube h u pw t, none) := by
  unfold pairBlock
  rw [hp]
  simp [wKey, hh, hu, hpw, ht, wSeq, wPure, blockLines, String.append_assoc]

/-- Under the same conditions for every selected pair, the whole loop
raises nothing and writes the concatenation of the blocks in selection
order. -/
theorem pairsLoop_ok (cfg : Config) (fa : FileAssignments)
    (pairs : List String) (h u pw t : String)
    (hwf : ∀ p ∈ pairs, (pySplit p "::").length = 2)
    (hh : cfgLookup cfg "host" = some h)
    (hu : cfgLookup cfg "username" = some u)
    (hpw : cfgLookup cfg "password" = some pw)
    (ht : cfgLookup cfg "token" = some t) :
    pairsLoop cfg fa pairs =
      (pairs.flatMap (fun p => blockLines fa p (catalogOf p) (cubeOf p) h u pw t),
       none) := by
  induction pairs with
  | nil => rfl
  | cons p rest ih =>
    have hlen : (pySplit p "::").length = 2 := hwf p (List.mem_cons_self _ _)
    have hp : splitPairParts p = [catalogOf p, cubeOf p] := by
      unfold splitPairParts catalogOf cubeOf splitPairParts
      rcases e : pySplit p "::" with _ | ⟨a, _ | ⟨b, _ | ⟨c, l⟩⟩⟩ <;>
        simp [e] at hlen ⊢
    have hblock := pairBlock_ok cfg fa p (catalogOf p) (cubeOf p) h u pw t hp hh hu hpw ht
    have hrest := ih (fun q hq => hwf q (List.mem_cons_of_mem _ hq))
    unfold pairsLoop
    rw [hblock, hrest, wSeq_of_none] <;> simp

/-- When the loop raises nothing, the body's lines are header, models line,
loop blocks, then the tail section's lines. -/
theorem wspBody_lines (cfg : Config) (pairs : List String) (fa : FileAssignments)
    (hloop : (pairsLoop cfg fa pairs).2 = none) :
    (wspBody cfg pairs fa).1 =
      headerLines fa ++ [modelsLine pairs] ++
        (pairsLoop cfg fa pairs).1 ++ (tailSection cfg).1 := by
  unfold wspBody
  rw [wSeq_fst_of_none (by rfl), wSeq_fst_of_none hloop]
  simp [wPure]

/-- The pattern `atscale.models=` never prefixes a per-cube key line
`atscale.<cube_key><suffix>` when the cube key is free of `'='` and the
suffix starts with `'.'`. -/
theorem models_pat_not_prefix (ck s : String) (hck : '=' ∉ ck.data)
    (hs : s.data.head? = some '.') :
    lineStartsWith ("atscale." ++ ck ++ s) "atscale.models=" = false := by
  rw [lineStartsWith_eq_false_iff]
  intro hpre
  rw [String.data_append, String.data_append] at hpre
  have hsplit : "atscale.models=".data = "atscale.".data ++ "models=".data := by
    decide
  rw [hsplit, List.append_assoc] at hpre
  have h2 : "models=".data <+: ck.data ++ s.data :=
    (List.prefix_append_right_inj _).mp hpre
  exact not_prefix_mid '.' s.data hs ck.data "models=".data (by decide) (by decide)
    hck h2

theorem filter_singleton_nil {p : String → Bool} {x : String} (h : p x = false) :
    List.filter p [x] = [] := by
  simp [h]

/-- Filtering distributes into a `wSeq`. -/
theorem filter_wSeq_nil (p : String → Bool) (a b : WOut)
    (ha : a.1.filter p = []) (hb : b.1.filter p = []) :
    ((wSeq a b).1).filter p = [] := by
  rcases a with ⟨ls, e⟩
  cases e with
  | none => simpa [wSeq, List.filter_append, hb] using ha
  | some e => simpa [wSeq] using ha

/-- An optional config line `k=v` is dropped by any filter pattern that
disagrees with its `k=` part. -/
theorem filter_optLine_nil (pat : String) (cfg : Config) (k : String)
    (h1 : lineStartsWith (k ++ "=") pat = false)
    (h2 : lineStartsWith pat (k ++ "=") = false) :
    (optLine cfg k).filter (fun l => lineStartsWith l pat) = [] := by
  unfold optLine
  rcases cfgLookup cfg k with _ | v
  · rfl
  · simp only []
    split
    · rfl
    · refine filter_singleton_nil ?_
      have : k ++ "=" ++ v = (k ++ "=") ++ v := rfl
      rw [this]
      exact lineStartsWith_concat_false pat (k ++ "=") v h1 h2

/-- Every line of the JDBC CSV override block is a per-cube key line. -/
theorem csvJdbcLines_mem (fa : FileAssignments) (pair ck l : String)
    (h : l ∈ csvJdbcLines fa pair ck) :
    ∃ s, l = "atscale." ++ ck ++ s ∧ s.data.head? = some '.' := by
  unfold csvJdbcLines at h
  split at h
  · simp at h
  · split at h
    · simp at h
    · rename_i a _
      split at h
      · simp at h
      · simp only [List.mem_cons, List.not_mem_nil, or_false] at h
        rcases h with rfl | rfl
        · refine ⟨".jdbc.setIngestionFileName=" ++ a.jdbc_file,
            by rw [String.append_assoc], ?_⟩
          rw [String.data_append]; rfl
        · refine ⟨".jdbc.setIngestionFileHasHeader=" ++ pyBoolStr a.jdbc_has_header,
            by rw [String.append_assoc], ?_⟩
          rw [String.data_append]; rfl

/-- Every line of the XMLA CSV override block is a per-cube key line. -/
theorem csvXmlaLines_mem (fa : FileAssignments) (pair ck l : String)
    (h : l ∈ csvXmlaLines fa pair ck) :
    ∃ s, l = "atscale." ++ ck ++ s ∧ s.data.head? = some '.' := by
  unfold csvXmlaLines at h
  split at h
  · simp at h
  · split at h
    · simp at h
    · rename_i a _
      split at h
      · simp at h
      · simp only [List.mem_cons, List.not_mem_nil, or_false] at h
        rcases h with rfl | rfl
        · refine ⟨".xmla.setIngestionFileName=" ++ a.xmla_file,
            by rw [String.append_assoc], ?_⟩
          rw [String.data_append]; rfl
        · refine ⟨".xmla.setIngestionFileHasHeader=" ++ pyBoolStr a.xmla_has_header,
            by rw [String.append_assoc], ?_⟩
          rw [String.data_append]; rfl

/-- No line of a pair block starts with `atscale.models=`, provided the
sanitized cube key is free of `'='`. -/
theorem blockLines_filter_models (fa : FileAssignments)
    (pair catalog cube h u pw t : String)
    (hck : '=' ∉ (pyReplace cube " " "_").data) :
    (blockLines fa pair catalog cube h u pw t).filter
      (fun l => lineStartsWith l "atscale.models=") = [] := by
  rw [List.filter_eq_nil_iff]
  intro l hl
  rw [Bool.not_eq_true]
  simp only [blockLines, List.mem_append, List.mem_cons, List.not_mem_nil,
    or_false, or_assoc] at hl
  rcases hl with rfl | rfl | rfl | rfl | rfl | rfl | hcsv |
    rfl | rfl | rfl | rfl | rfl | rfl | rfl | hcsv2 | rfl
  · exact lineStartsWith_concat_false _ "# " _ (by decide) (by decide)
  · exact models_pat_not_prefix _ _ hck (by rw [String.data_append]; rfl)
  · exact models_pat_not_prefix _ _ hck (by rw [String.data_append]; rfl)
  · exact models_pat_not_prefix _ _ hck (by rw [String.data_append]; rfl)
  · exact models_pat_not_prefix _ _ hck (by rfl)
  · exact models_pat_not_prefix _ _ hck (by rfl)
  · rcases csvJdbcLines_mem _ _ _ _ hcsv with ⟨s, rfl, hs⟩
    exact models_pat_not_prefix _ _ hck hs
  · exact models_pat_not_prefix _ _ hck (by rw [String.data_append]; rfl)
  · exact models_pat_not_prefix _ _ hck (by rw [String.data_append]; rfl)
  · exact models_pat_not_prefix _ _ hck (by rw [String.data_append]; rfl)
  · exact models_pat_not_prefix _ _ hck (by rw [String.data_append]; rfl)
  · exact models_pat_not_prefix _ _ hck (by rfl)
  · exact models_pat_not_prefix _ _ hck (by rw [String.data_append]; rfl)
  · exact models_pat_not_prefix _ _ hck (by rw [String.data_append]; rfl)
  · rcases csvXmlaLines_mem _ _ _ _ hcsv2 with ⟨s, rfl, hs⟩
    exact models_pat_not_prefix _ _ hck hs
  · decide

/-- No line of a pair block starts with a pattern that disagrees with both
of the fixed line openers `atscale.` and `# `. -/
theorem blockLines_filter_nil_of_disagree (pat : String) (fa : FileAssignments)
    (pair catalog cube h u pw t : String)
    (h1 : lineStartsWith "atscale." pat = false)
    (h2 : lineStartsWith pat "atscale." = false)
    (h3 : lineStartsWith "# " pat = false)
    (h4 : lineStartsWith pat "# " = false) :
    (blockLines fa pair catalog cube h u pw t).filter
      (fun l => lineStartsWith l pat) = [] := by
  have key : ∀ ck s : String,
      lineStartsWith ("atscale." ++ ck ++ s) pat = false := by
    intro ck s
    rw [String.append_assoc]
    exact lineStartsWith_concat_false pat "atscale." (ck ++ s) h1 h2
  rw [List.filter_eq_nil_iff]
  intro l hl
  rw [Bool.not_eq_true]
  simp only [blockLines, List.mem_append, List.mem_cons, List.not_mem_nil,
    or_false, or_assoc] at hl
  rcases hl with rfl | rfl | rfl | rfl | rfl | rfl | hcsv |
    rfl | rfl | rfl | rfl | rfl | rfl | rfl | hcsv2 | rfl
  · exact lineStartsWith_concat_false _ "# " _ h3 h4
  · exact key _ _
  · exact key _ _
  · exact key _ _
  · exact key _ _
  · exact key _ _
  · rcases csvJdbcLines_mem _ _ _ _ hcsv with ⟨s, rfl, -⟩
    exact key _ _
  · exact key _ _
  · exact key _ _
  · exact key _ _
  · exact key _ _
  · exact key _ _
  · exact key _ _
  · exact key _ _
  · rcases csvXmlaLines_mem _ _ _ _ hcsv2 with ⟨s, rfl, -⟩
    exact key _ _
  · exact h3

/-- The per-pair loop contributes no `atscale.models=` line (happy path,
cube keys free of `'='`). -/
theorem pairsLoop_filter_models (cfg : Config) (fa : FileAssignments)
    (pairs : List String) (h u pw t : String)
    (hwf : ∀ p ∈ pairs, (pySplit p "::").length = 2)
    (hh : cfgLookup cfg "host" = some h)
    (hu : cfgLookup cfg "username" = some u)
    (hpw : cfgLookup cfg "password" = some pw)
    (ht : cfgLookup cfg "token" = some t)
    (hck : ∀ p ∈ pairs, '=' ∉ (cubeKeyOf p).data) :
    (pairsLoop cfg fa pairs).1.filter
      (fun l => lineStartsWith l "atscale.models=") = [] := by
  rw [pairsLoop_ok cfg fa pairs h u pw t hwf hh hu hpw ht]
  rw [List.filter_eq_nil_iff]
  intro l hl
  rw [Bool.not_eq_true]
  rcases List.mem_flatMap.mp hl with ⟨p, hp, hlp⟩
  have hckp : '=' ∉ (pyReplace (cubeOf p) " " "_").data := hck p hp
  have := blockLines_filter_models fa p (catalogOf p) (cubeOf p) h u pw t hckp
  rw [List.filter_eq_nil_iff] at this
  have := this l hlp
  rwa [Bool.not_eq_true] at this

/-- The per-pair loop contributes no line starting with a pattern that
disagrees with `atscale.` and `# ` — whatever the configuration and pairs. -/
theorem pairsLoop_filter_nil_of_disagree (pat : String) (cfg : Config)
    (fa : FileAssignments) (pairs : List String)
    (h1 : lineStartsWith "atscale." pat = false)
    (h2 : lineStartsWith pat "atscale." = false)
    (h3 : lineStartsWith "# " pat = false)
    (h4 : lineStartsWith pat "# " = false) :
    (pairsLoop cfg fa pairs).1.filter
      (fun l => lineStartsWith l pat) = [] := by
  induction pairs with
  | nil => rfl
  | cons p rest ih =>
    unfold pairsLoop
    refine filter_wSeq_nil _ _ _ ?_ ih
    -- every line of `pairBlock` is a `blockLines`-shaped line or the block
    -- is cut short; reuse the shapes by direct case analysis on the block
    rw [List.filter_eq_nil_iff]
    intro l hl
    rw [Bool.not_eq_true]
    have key : ∀ ck s : String,
        lineStartsWith ("atscale." ++ ck ++ s) pat = false := by
      intro ck s
      rw [String.append_assoc]
      exact lineStartsWith_concat_false pat "atscale." (ck ++ s) h1 h2
    unfold pairBlock at hl
    rcases hsp : splitPairParts p with _ | ⟨catalog, _ | ⟨cube, _ | ⟨x, xs⟩⟩⟩ <;>
      rw [hsp] at hl
    · simp at hl
    · simp at hl
    · simp only [wSeq, wKey, wPure] at hl
      rcases hhost : cfgLookup cfg "host" with _ | hv <;> rw [hhost] at hl
      · simp at hl
        rcases hl with rfl
        exact lineStartsWith_concat_false _ "# " _ h3 h4
      · rcases huser : cfgLookup cfg "username" with _ | uv <;> rw [huser] at hl
        · simp at hl
          rcases hl with rfl | rfl
          · exact lineStartsWith_concat_false _ "# " _ h3 h4
          · exact key _ _
        · rcases hpass : cfgLookup cfg "password" with _ | pv <;> rw [hpass] at hl
          · simp at hl
            rcases hl with rfl | rfl | rfl
            · exact lineStartsWith_concat_false _ "# " _ h3 h4
            · exact key _ _
            · exact key _ _
          · rcases htok : cfgLookup cfg "token" with _ | tv <;> rw [htok] at hl
            · simp only [List.append_nil, List.mem_append, List.mem_cons,
                List.not_mem_nil, or_false, or_assoc] at hl
              rcases hl with rfl | rfl | rfl | rfl | rfl | rfl | hcsv | rfl
              · exact lineStartsWith_concat_false _ "# " _ h3 h4
              · exact key _ _
              · exact key _ _
              · exact key _ _
              · exact key _ _
              · exact key _ _
              · rcases csvJdbcLines_mem _ _ _ _ hcsv with ⟨s, rfl, -⟩
                exact key _ _
              · exact key _ _
            · simp only [List.mem_append, List.mem_cons, List.not_mem_nil,
                or_false, or_assoc] at hl
              rcases hl with rfl | rfl | rfl | rfl | rfl | rfl | hcsv |
                rfl | rfl | rfl | rfl | rfl | rfl | rfl | hcsv2 | rfl
              · exact lineStartsWith_concat_false _ "# " _ h3 h4
              · exact key _ _
              · exact key _ _
              · exact key _ _
              · exact key _ _
              · exact key _ _
              · rcases csvJdbcLines_mem _ _ _ _ hcsv with ⟨s, rfl, -⟩
                exact key _ _
              · exact key _ _
              · exact key _ _
              · exact key _ _
              · exact key _ _
              · exact key _ _
              · exact key _ _
              · exact key _ _
              · rcases csvXmlaLines_mem _ _ _ _ hcsv2 with ⟨s, rfl, -⟩
                exact key _ _
              · exact h3
    · simp at hl

/-- The tail section (postgres, tuning, AWS/Snowflake options) contributes
no `atscale.models=` line, whatever the configuration. -/
theorem tailSection_filter_models (cfg : Config) :
    (tailSection cfg).1.filter
      (fun l => lineStartsWith l "atscale.models=") = [] := by
  unfold tailSection
  rcases hpg : cfgLookup cfg "postgres_host" with _ | pg
  · simp [wKey, hpg]
  · simp only [wKey, hpg]
    refine filter_wSeq_nil _ _ _ ?_ (filter_wSeq_nil _ _ _ ?_ ?_)
    · have hpgline : lineStartsWith
          ("atscale.postgres.jdbc.url=jdbc:postgresql://" ++ pg ++ ":10520/atscale")
          "atscale.models=" = false := by
        rw [String.append_assoc]
        exact lineStartsWith_concat_false _
          "atscale.postgres.jdbc.url=jdbc:postgresql://" _ (by decide) (by decide)
      simp only [wPure, List.filter_append, List.filter_cons, hpgline]
      rw [filter_optLine_nil _ _ "aws.region" (by decide) (by decide),
        filter_optLine_nil _ _ "aws.secrets-key" (by decide) (by decide),
        filter_optLine_nil _ _ "snowflake.archive.account" (by decide) (by decide),
        filter_optLine_nil _ _ "snowflake.archive.warehouse" (by decide) (by decide),
        filter_optLine_nil _ _ "snowflake.archive.database" (by decide) (by decide),
        filter_optLine_nil _ _ "snowflake.archive.schema" (by decide) (by decide),
        filter_optLine_nil _ _ "snowflake.archive.role" (by decide) (by decide),
        filter_optLine_nil _ _ "snowflake.archive.username" (by decide) (by decide)]
      have husr : lineStartsWith "atscale.postgres.jdbc.username=atscale"
          "atscale.models=" = false := by decide
      have hpwd : lineStartsWith "atscale.postgres.jdbc.password=atscale"
          "atscale.models=" = false := by decide
      have htun : List.filter (fun l => lineStartsWith l "atscale.models=")
          tuningLines = [] := by decide
      simp [husr, hpwd, htun]
    · unfold snowPasswordLines
      split
      · rcases htok : cfgLookup cfg "snowflake.archive.token" with _ | tok
        · simp [wKey, htok]
        · simp only [wKey, htok, wPure]
          exact filter_singleton_nil
            (lineStartsWith_concat_false _ "snowflake.archive.password=" _
              (by decide) (by decide))
      · rfl
    · exact filter_optLine_nil _ _ "snowflake.archive.token" (by decide) (by decide)

/-- When the password guard is truthy and the token key is present, the
buggy password emission writes the token's value. -/
theorem snowPasswordLines_of_token (cfg : Config) (pw tok : String)
    (hpw : cfgLookup cfg "snowflake.archive.password" = some pw)
    (hpwne : pw ≠ "")
    (htok : cfgLookup cfg "snowflake.archive.token" = some tok) :
    snowPasswordLines cfg = (["snowflake.archive.password=" ++ tok], none) := by
  have hg : cfgTruthy cfg "snowflake.archive.password" = true := by
    unfold cfgTruthy
    rw [hpw]
    exact bne_iff_ne.mpr hpwne
  unfold snowPasswordLines
  simp [hg, wKey, htok, wPure]

/-- When the password guard is truthy and the token key is absent, the
buggy password emission raises `KeyError` and writes nothing. -/
theorem snowPasswordLines_keyerror (cfg : Config) (pw : String)
    (hpw : cfgLookup cfg "snowflake.archive.password" = some pw)
    (hpwne : pw ≠ "")
    (htok : cfgLookup cfg "snowflake.archive.token" = none) :
    snowPasswordLines cfg = ([], some (.keyError "snowflake.archive.token")) := by
  have hg : cfgTruthy cfg "snowflake.archive.password" = true := by
    unfold cfgTruthy
    rw [hpw]
    exact bne_iff_ne.mpr hpwne
  unfold snowPasswordLines
  simp [hg, wKey, htok]

/-- With postgres key present, password guard truthy and the token key
present, the tail section's lines filtered on `snowflake.archive.password=`
are exactly the single line carrying the token's value. -/
theorem tailSection_filter_snowpw (cfg : Config) (pg pw tok : String)
    (hpg : cfgLookup cfg "postgres_host" = some pg)
    (hpw : cfgLookup cfg "snowflake.archive.password" = some pw)
    (hpwne : pw ≠ "")
    (htok : cfgLookup cfg "snowflake.archive.token" = some tok) :
    (tailSection cfg).1.filter
        (fun l => lineStartsWith l "snowflake.archive.password=") =
      ["snowflake.archive.password=" ++ tok] := by
  unfold tailSection
  simp only [wKey, hpg]
  rw [wSeq_fst_of_none (by rfl), List.filter_append]
  have hbig : (wPure
      (["atscale.postgres.jdbc.url=jdbc:postgresql://" ++ pg ++ ":10520/atscale",
        "atscale.postgres.jdbc.username=atscale",
        "atscale.postgres.jdbc.password=atscale"] ++
       tuningLines ++
       optLine cfg "aws.region" ++
       optLine cfg "aws.secrets-key" ++
       optLine cfg "snowflake.archive.account" ++
       optLine cfg "snowflake.archive.warehouse" ++
       optLine cfg "snowflake.archive.database" ++
       optLine cfg "snowflake.archive.schema" ++
       optLine cfg "snowflake.archive.role" ++
       optLine cfg "snowflake.archive.username")).1.filter
      (fun l => lineStartsWith l "snowflake.archive.password=") = [] := by
    have hpgline : lineStartsWith
        ("atscale.postgres.jdbc.url=jdbc:postgresql://" ++ pg ++ ":10520/atscale")
        "snowflake.archive.password=" = false := by
      rw [String.append_assoc]
      exact lineStartsWith_concat_false _
        "atscale.postgres.jdbc.url=jdbc:postgresql://" _ (by decide) (by decide)
    simp only [wPure, List.filter_append, List.filter_cons, hpgline]
    rw [filter_optLine_nil _ _ "aws.region" (by decide) (by decide),
      filter_optLine_nil _ _ "aws.secrets-key" (by decide) (by decide),
      filter_optLine_nil _ _ "snowflake.archive.account" (by decide) (by decide),
      filter_optLine_nil _ _ "snowflake.archive.warehouse" (by decide) (by decide),
      filter_optLine_nil _ _ "snowflake.archive.database" (by decide) (by decide),
      filter_optLine_nil _ _ "snowflake.archive.schema" (by decide) (by decide),
      filter_optLine_nil _ _ "snowflake.archive.role" (by decide) (by decide),
      filter_optLine_nil _ _ "snowflake.archive.username" (by decide) (by decide)]
    have husr : lineStartsWith "atscale.postgres.jdbc.username=atscale"
        "snowflake.archive.password=" = false := by decide
    have hpwd : lineStartsWith "atscale.postgres.jdbc.password=atscale"
        "snowflake.archive.password=" = false := by decide
    have htun : List.filter (fun l => lineStartsWith l "snowflake.archive.password=")
        tuningLines = [] := by decide
    simp [husr, hpwd, htun]
  rw [hbig]
  rw [wSeq_fst_of_none (by
    rw [snowPasswordLines_of_token cfg pw tok hpw hpwne htok])]
  rw [snowPasswordLines_of_token cfg pw tok hpw hpwne htok, List.filter_append]
  simp only [wPure]
  rw [filter_optLine_nil _ _ "snowflake.archive.token" (by decide) (by decide)]
  have hpred : lineStartsWith ("snowflake.archive.password=" ++ tok)
      "snowflake.archive.password=" = true := lineStartsWith_concat_true _ _
  simp [List.filter_cons, hpred]

/-! ## Claim theorems -/

/-- C1: the claim says `run_executor`, called while idle with a valid
executor name, regenerates the properties document and spawns the external
process, returning success exactly when it exits 0.  The code instead calls
the undefined method `write_systems_properties` (`core.py:332`; the class
only defines `write_systems_properties_with_csv` and
`write_csv_systems_properties`), so the `AttributeError` is caught and the
call returns `False` without writing the properties file, opening the log
file, or spawning any process.  Evaluated here at a concrete idle-state
launch request. -/
theorem run_executor_attribute_error :
    run_executor ⟨false, none, none⟩ "QueryExtractExecutor" ["Cat1 :: CubeA"] =
      ({ success := false, rejectedAlreadyRunning := false,
         caught := some (.attributeError "write_systems_properties"),
         wroteProperties := false, openedLogFile := false,
         spawnedProcess := false },
       ⟨false, some "QueryExtractExecutor", none⟩) := by
  rfl

/-- C3: for the scenario configuration `{host="h", username="u",
password="p", token="t", postgres_host="pg"}` and the single-pair selection
`["Cat1 :: CubeA"]` in live mode, the written properties document contains
the four claimed lines (and the writer raises nothing). -/
theorem end_to_end_live_mode :
    "atscale.models=Cat1" ∈
      (write_systems_properties_with_csv cfgScenario ["Cat1 :: CubeA"] []).1 ∧
    "atscale.CubeA.jdbc.url=jdbc:postgresql://h:15432/Cat1" ∈
      (write_systems_properties_with_csv cfgScenario ["Cat1 :: CubeA"] []).1 ∧
    "atscale.CubeA.xmla.url=https://h:10502/xmla/default/t" ∈
      (write_systems_properties_with_csv cfgScenario ["Cat1 :: CubeA"] []).1 ∧
    "atscale.postgres.jdbc.url=jdbc:postgresql://pg:10520/atscale" ∈
      (write_systems_properties_with_csv cfgScenario ["Cat1 :: CubeA"] []).1 ∧
    (write_systems_properties_with_csv cfgScenario ["Cat1 :: CubeA"] []).2 = none := by
  decide

/-- C5: for every non-empty selection, configuration and file-assignment
map, running the writer a second time with identical inputs leaves the file
contents (and the raised exception, if any) exactly as after the first
call: the output is a pure function of the inputs, with no timestamps. -/
theorem write_idempotent (prev : Option String) (cfg : Config)
    (pairs : List String) (fa : FileAssignments) (hne : pairs ≠ []) :
    wspFile (wspFile prev cfg pairs fa).1 cfg pairs fa =
      wspFile prev cfg pairs fa := by
  unfold wspFile
  by_cases h1 : pairs.isEmpty = true
  · exact absurd (List.isEmpty_iff.mp h1) hne
  · rw [Bool.not_eq_true] at h1
    by_cases h2 : pairs.any shortPair = true <;> simp [h1, h2]

/-- Witness for C5 at a concrete input. -/
theorem write_idempotent_witness :
    (["Cat1 :: CubeA"] : List String) ≠ [] ∧
    wspFile (wspFile none cfgScenario ["Cat1 :: CubeA"] []).1 cfgScenario
        ["Cat1 :: CubeA"] [] =
      wspFile none cfgScenario ["Cat1 :: CubeA"] [] :=
  ⟨by decide,
   write_idempotent none cfgScenario ["Cat1 :: CubeA"] [] (by decide)⟩

/-- C6: a launch request issued while a run is already active is rejected
(returns `False` on the already-running guard), spawns nothing, writes
nothing, and leaves the run state completely unchanged. -/
theorem run_executor_rejected_while_running (st : RunState) (ex : String)
    (pairs : List String) (h : st.is_running = true) :
    (run_executor st ex pairs).1.success = false ∧
    (run_executor st ex pairs).1.rejectedAlreadyRunning = true ∧
    (run_executor st ex pairs).1.spawnedProcess = false ∧
    (run_executor st ex pairs).1.wroteProperties = false ∧
    (run_executor st ex pairs).2 = st := by
  simp [run_executor, h]

/-- Witness for C6 at a concrete active run state. -/
theorem run_executor_rejected_while_running_witness :
    (RunState.is_running ⟨true, some "QueryExtractExecutor", some 1⟩ = true) ∧
    ((run_executor ⟨true, some "QueryExtractExecutor", some 1⟩
        "OpenStepSequentialSimulationExecutor" ["Cat1 :: CubeA"]).1.success = false ∧
     (run_executor ⟨true, some "QueryExtractExecutor", some 1⟩
        "OpenStepSequentialSimulationExecutor" ["Cat1 :: CubeA"]).1.rejectedAlreadyRunning = true ∧
     (run_executor ⟨true, some "QueryExtractExecutor", some 1⟩
        "OpenStepSequentialSimulationExecutor" ["Cat1 :: CubeA"]).1.spawnedProcess = false ∧
     (run_executor ⟨true, some "QueryExtractExecutor", some 1⟩
        "OpenStepSequentialSimulationExecutor" ["Cat1 :: CubeA"]).1.wroteProperties = false ∧
     (run_executor ⟨true, some "QueryExtractExecutor", some 1⟩
        "OpenStepSequentialSimulationExecutor" ["Cat1 :: CubeA"]).2 =
       ⟨true, some "QueryExtractExecutor", some 1⟩) :=
  ⟨rfl,
   run_executor_rejected_while_running ⟨true, some "QueryExtractExecutor", some 1⟩
     "OpenStepSequentialSimulationExecutor" ["Cat1 :: CubeA"] rfl⟩

/-- C7: calling the writer with an empty selection raises the validation
`ValueError` before the file is opened, so the file contents are untouched
for every configuration, file-assignment map and previous contents. -/
theorem write_empty_selection_rejected (prev : Option String) (cfg : Config)
    (fa : FileAssignments) :
    wspFile prev cfg [] fa =
      (prev, some (.valueError "No catalog/cube pairs selected")) := by
  simp [wspFile]

/-- C9: from any control-directory state, `stop_simulation` followed by
`cancel_stop_signal` removes the sentinel and that `cancel_stop_signal`
returns `true`; an immediately repeated `cancel_stop_signal` returns
`false`. -/
theorem stop_then_cancel_cancel (fs : Option String) (now : String) :
    (cancel_stop_signal (stop_simulation fs now).1).1 = none ∧
    (cancel_stop_signal (stop_simulation fs now).1).2 = true ∧
    (cancel_stop_signal (cancel_stop_signal (stop_simulation fs now).1).1).2 = false := by
  simp [stop_simulation, cancel_stop_signal]

/-- C2 (amended): for every non-empty selection of well-formed pairs whose
sanitized cube keys contain no `'='`, against a configuration holding the
required core keys, the written document contains exactly one line
beginning with `atscale.models=`, and that line lists the catalog of each
selected pair in selection order — duplicates retained, not deduplicated as
the original claim stated. -/
theorem models_line_exactly_once (cfg : Config) (fa : FileAssignments)
    (pairs : List String) (h u pw t : String)
    (hne : pairs ≠ [])
    (hwf : ∀ p ∈ pairs, (pySplit p "::").length = 2)
    (hh : cfgLookup cfg "host" = some h)
    (hu : cfgLookup cfg "username" = some u)
    (hpw : cfgLookup cfg "password" = some pw)
    (ht : cfgLookup cfg "token" = some t)
    (hck : ∀ p ∈ pairs, '=' ∉ (cubeKeyOf p).data) :
    (write_systems_properties_with_csv cfg pairs fa).1.filter
        (fun l => lineStartsWith l "atscale.models=") =
      ["atscale.models=" ++ String.intercalate ", " (pairs.map firstPart)] := by
  rw [wsp_eq_body cfg pairs fa hne hwf]
  have hloop : (pairsLoop cfg fa pairs).2 = none := by
    rw [pairsLoop_ok cfg fa pairs h u pw t hwf hh hu hpw ht]
  rw [wspBody_lines cfg pairs fa hloop]
  simp only [List.filter_append]
  rw [pairsLoop_filter_models cfg fa pairs h u pw t hwf hh hu hpw ht hck,
    tailSection_filter_models]
  have hhead : (headerLines fa).filter
      (fun l => lineStartsWith l "atscale.models=") = [] := by
    unfold headerLines
    split <;> decide
  rw [hhead]
  have hml : lineStartsWith
      ("atscale.models=" ++ String.intercalate ", " (pairs.map firstPart))
      "atscale.models=" = true := lineStartsWith_concat_true _ _
  simp [List.filter_cons, hml, modelsLine]

/-- Witness for C2's amended theorem at a concrete input. -/
theorem models_line_exactly_once_witness :
    ((["A :: x", "A :: y"] : List String) ≠ [] ∧
     (∀ p ∈ (["A :: x", "A :: y"] : List String), (pySplit p "::").length = 2) ∧
     cfgLookup cfgScenario "host" = some "h" ∧
     cfgLookup cfgScenario "username" = some "u" ∧
     cfgLookup cfgScenario "password" = some "p" ∧
     cfgLookup cfgScenario "token" = some "t" ∧
     (∀ p ∈ (["A :: x", "A :: y"] : List String), '=' ∉ (cubeKeyOf p).data)) ∧
    (write_systems_properties_with_csv cfgScenario ["A :: x", "A :: y"] []).1.filter
        (fun l => lineStartsWith l "atscale.models=") =
      ["atscale.models=" ++ String.intercalate ", "
        ((["A :: x", "A :: y"] : List String).map firstPart)] :=
  ⟨⟨by decide, by decide, by decide, by decide, by decide, by decide, by decide⟩,
   models_line_exactly_once cfgScenario [] ["A :: x", "A :: y"] "h" "u" "p" "t"
     (by decide) (by decide) (by decide) (by decide) (by decide) (by decide)
     (by decide)⟩

/-- C8: for every selected pair parsed as `(catalog, cube)`, the written
document contains the JDBC URL line whose key uses the cube identifier
with each space replaced by `_` and whose URL path segment uses the
catalog with each space replaced by `%20`, as well as the `xmla.cube` line
under the same sanitized key. -/
theorem cube_key_sanitized_catalog_encoded (cfg : Config) (fa : FileAssignments)
    (pairs : List String) (p catalog cube h u pw t : String)
    (hmem : p ∈ pairs)
    (hp : splitPairParts p = [catalog, cube])
    (hwf : ∀ q ∈ pairs, (pySplit q "::").length = 2)
    (hh : cfgLookup cfg "host" = some h)
    (hu : cfgLookup cfg "username" = some u)
    (hpw : cfgLookup cfg "password" = some pw)
    (ht : cfgLookup cfg "token" = some t) :
    ("atscale." ++ pyReplace cube " " "_" ++
       (".jdbc.url=jdbc:postgresql://" ++
         (h ++ (":15432/" ++ pyReplace catalog " " "%20"))))
      ∈ (write_systems_properties_with_csv cfg pairs fa).1 ∧
    ("atscale." ++ pyReplace cube " " "_" ++ (".xmla.cube=" ++ cube))
      ∈ (write_systems_properties_with_csv cfg pairs fa).1 := by
  have hne : pairs ≠ [] := List.ne_nil_of_mem hmem
  rw [wsp_eq_body cfg pairs fa hne hwf]
  have hloop := pairsLoop_ok cfg fa pairs h u pw t hwf hh hu hpw ht
  rw [wspBody_lines cfg pairs fa (by rw [hloop])]
  have hcat : catalogOf p = catalog := by unfold catalogOf; rw [hp]; rfl
  have hcube : cubeOf p = cube := by unfold cubeOf; rw [hp]; rfl
  rw [hloop]
  constructor
  · refine List.mem_append_left _ (List.mem_append_right _ ?_)
    refine List.mem_flatMap.mpr ⟨p, hmem, ?_⟩
    rw [hcat, hcube]
    simp [blockLines]
  · refine List.mem_append_left _ (List.mem_append_right _ ?_)
    refine List.mem_flatMap.mpr ⟨p, hmem, ?_⟩
    rw [hcat, hcube]
    simp [blockLines]

/-- Witness for C8 at the pair `"My Sales :: Revenue Cube"`. -/
theorem cube_key_sanitized_catalog_encoded_witness :
    (("My Sales :: Revenue Cube" : String) ∈
        (["My Sales :: Revenue Cube"] : List String) ∧
     splitPairParts "My Sales :: Revenue Cube" = ["My Sales", "Revenue Cube"] ∧
     (∀ q ∈ (["My Sales :: Revenue Cube"] : List String),
        (pySplit q "::").length = 2) ∧
     cfgLookup cfgScenario "host" = some "h" ∧
     cfgLookup cfgScenario "username" = some "u" ∧
     cfgLookup cfgScenario "password" = some "p" ∧
     cfgLookup cfgScenario "token" = some "t") ∧
    (("atscale." ++ pyReplace "Revenue Cube" " " "_" ++
        (".jdbc.url=jdbc:postgresql://" ++
          ("h" ++ (":15432/" ++ pyReplace "My Sales" " " "%20"))))
       ∈ (write_systems_properties_with_csv cfgScenario
           ["My Sales :: Revenue Cube"] []).1 ∧
     ("atscale." ++ pyReplace "Revenue Cube" " " "_" ++
        (".xmla.cube=" ++ "Revenue Cube"))
       ∈ (write_systems_properties_with_csv cfgScenario
           ["My Sales :: Revenue Cube"] []).1) :=
  ⟨⟨by decide, by decide, by decide, by decide, by decide, by decide, by decide⟩,
   cube_key_sanitized_catalog_encoded cfgScenario [] ["My Sales :: Revenue Cube"]
     "My Sales :: Revenue Cube" "My Sales" "Revenue Cube" "h" "u" "p" "t"
     (by decide) (by decide) (by decide) (by decide) (by decide) (by decide)
     (by decide)⟩

/-- C10: whenever the configuration value under `snowflake.archive.password`
is non-empty, the writer emits exactly one `snowflake.archive.password=`
line and its value is taken from the key `snowflake.archive.token`
(`core.py:271` reads `self.cfg['snowflake.archive.token']` under the
`snowflake.archive.password` guard), and the write raises `KeyError` when
the token key is absent from the configuration. -/
theorem snowflake_password_taken_from_token (cfg : Config)
    (fa : FileAssignments) (pairs : List String) (h u pw t pg spw : String)
    (hne : pairs ≠ [])
    (hwf : ∀ p ∈ pairs, (pySplit p "::").length = 2)
    (hh : cfgLookup cfg "host" = some h)
    (hu : cfgLookup cfg "username" = some u)
    (hpw : cfgLookup cfg "password" = some pw)
    (ht : cfgLookup cfg "token" = some t)
    (hpg : cfgLookup cfg "postgres_host" = some pg)
    (hspw : cfgLookup cfg "snowflake.archive.password" = some spw)
    (hspwne : spw ≠ "") :
    (∀ tok, cfgLookup cfg "snowflake.archive.token" = some tok →
      (write_systems_properties_with_csv cfg pairs fa).1.filter
          (fun l => lineStartsWith l "snowflake.archive.password=") =
        ["snowflake.archive.password=" ++ tok]) ∧
    (cfgLookup cfg "snowflake.archive.token" = none →
      (write_systems_properties_with_csv cfg pairs fa).2 =
        some (.keyError "snowflake.archive.token")) := by
  have hloop : (pairsLoop cfg fa pairs).2 = none := by
    rw [pairsLoop_ok cfg fa pairs h u pw t hwf hh hu hpw ht]
  constructor
  · intro tok htok
    rw [wsp_eq_body cfg pairs fa hne hwf]
    rw [wspBody_lines cfg pairs fa hloop]
    simp only [List.filter_append]
    rw [pairsLoop_filter_nil_of_disagree "snowflake.archive.password=" cfg fa
        pairs (by decide) (by decide) (by decide) (by decide),
      tailSection_filter_snowpw cfg pg spw tok hpg hspw hspwne htok]
    have hhead : (headerLines fa).filter
        (fun l => lineStartsWith l "snowflake.archive.password=") = [] := by
      unfold headerLines
      split <;> decide
    rw [hhead]
    have hml : lineStartsWith
        ("atscale.models=" ++ String.intercalate ", " (pairs.map firstPart))
        "snowflake.archive.password=" = false :=
      lineStartsWith_concat_false _ "atscale.models=" _ (by decide) (by decide)
    simp [List.filter_cons, hml, modelsLine]
  · intro htok
    rw [wsp_eq_body cfg pairs fa hne hwf]
    unfold wspBody
    rw [wSeq_snd_of_none (by rfl), wSeq_snd_of_none hloop]
    unfold tailSection
    simp only [wKey, hpg]
    rw [wSeq_snd_of_none (by rfl),
      snowPasswordLines_keyerror cfg spw hspw hspwne htok]
    rfl

/-- Witness for C10 at concrete configurations, one with and one without
the `snowflake.archive.token` key. -/
theorem snowflake_password_taken_from_token_witness :
    ((["Cat1 :: CubeA"] : List String) ≠ [] ∧
     (∀ p ∈ (["Cat1 :: CubeA"] : List String), (pySplit p "::").length = 2) ∧
     cfgLookup cfgSnow "host" = some "h" ∧
     cfgLookup cfgSnow "username" = some "u" ∧
     cfgLookup cfgSnow "password" = some "p" ∧
     cfgLookup cfgSnow "token" = some "t" ∧
     cfgLookup cfgSnow "postgres_host" = some "pg" ∧
     cfgLookup cfgSnow "snowflake.archive.password" = some "secret" ∧
     ("secret" : String) ≠ "" ∧
     cfgLookup cfgSnowNoTok "snowflake.archive.password" = some "secret") ∧
    ((∀ tok, cfgLookup cfgSnow "snowflake.archive.token" = some tok →
       (write_systems_properties_with_csv cfgSnow ["Cat1 :: CubeA"] []).1.filter
           (fun l => lineStartsWith l "snowflake.archive.password=") =
         ["snowflake.archive.password=" ++ tok]) ∧
     (cfgLookup cfgSnow "snowflake.archive.token" = none →
       (write_systems_properties_with_csv cfgSnow ["Cat1 :: CubeA"] []).2 =
         some (.keyError "snowflake.archive.token"))) ∧
    ((∀ tok, cfgLookup cfgSnowNoTok "snowflake.archive.token" = some tok →
       (write_systems_properties_with_csv cfgSnowNoTok ["Cat1 :: CubeA"] []).1.filter
           (fun l => lineStartsWith l "snowflake.archive.password=") =
         ["snowflake.archive.password=" ++ tok]) ∧
     (cfgLookup cfgSnowNoTok "snowflake.archive.token" = none →
       (write_systems_properties_with_csv cfgSnowNoTok ["Cat1 :: CubeA"] []).2 =
         some (.keyError "snowflake.archive.token"))) :=
  ⟨⟨by decide, by decide, by decide, by decide, by decide, by decide, by decide,
    by decide, by decide, by decide⟩,
   snowflake_password_taken_from_token cfgSnow [] ["Cat1 :: CubeA"]
     "h" "u" "p" "t" "pg" "secret" (by decide) (by decide) (by decide)
     (by decide) (by decide) (by decide) (by decide) (by decide) (by decide),
   snowflake_password_taken_from_token cfgSnowNoTok [] ["Cat1 :: CubeA"]
     "h" "u" "p" "t" "pg" "secret" (by decide) (by decide) (by decide)
     (by decide) (by decide) (by decide) (by decide) (by decide) (by decide)⟩

/-- C2, counterexample: for the selection `["A :: x", "A :: y"]` the unique
`atscale.models=` line reads `atscale.models=A, A` — the catalog `A` is
listed once per selected pair, not once per distinct catalog as claimed. -/
theorem models_line_lists_duplicates :
    (write_systems_properties_with_csv cfgScenario ["A :: x", "A :: y"] []).1.filter
        (fun l => lineStartsWith l "atscale.models=") =
      ["atscale.models=A, A"] := by
  decide

/-- C4 (amended): the invocation vector contains entries beginning with
`HTTP_PROXY=` and `HTTPS_PROXY=` — uppercase only; the lowercase variants
asserted by the original claim are never injected — if and only if the
executor is one of the two warehouse-archive executors and both the proxy
host and proxy port configuration values are non-empty. -/
theorem proxy_env_vars_iff (cfg : Config) (cwd : String)
    (cacertsPresent : Bool) (ex : String)
    (hcwd : '=' ∉ cwd.data)
    (hex1 : lineStartsWith ex "HTTP_PROXY=" = false)
    (hex2 : lineStartsWith ex "HTTPS_PROXY=" = false) :
    ((∃ e ∈ build_docker_command cfg cwd cacertsPresent ex,
        lineStartsWith e "HTTP_PROXY=" = true) ↔
      (ex ∈ archiveExecutors ∧ cfgGetD cfg "proxy" ≠ "" ∧
        cfgGetD cfg "proxyport" ≠ "")) ∧
    ((∃ e ∈ build_docker_command cfg cwd cacertsPresent ex,
        lineStartsWith e "HTTPS_PROXY=" = true) ↔
      (ex ∈ archiveExecutors ∧ cfgGetD cfg "proxy" ≠ "" ∧
        cfgGetD cfg "proxyport" ≠ "")) := by
  have hmount : ∀ (pat lit : String), '=' ∈ pat.data → '/' ∉ pat.data →
      lit.data.head? = some '/' →
      lineStartsWith (cwd ++ lit) pat = false := by
    intro pat lit hpe hps hlit
    rw [lineStartsWith_eq_false_iff, String.data_append]
    exact not_prefix_mid '/' lit.data hlit cwd.data pat.data hpe hps hcwd
  by_cases hcond : ex ∈ archiveExecutors ∧ cfgGetD cfg "proxy" ≠ "" ∧
      cfgGetD cfg "proxyport" ≠ ""
  · refine ⟨iff_of_true ?_ hcond, iff_of_true ?_ hcond⟩
    · refine ⟨"HTTP_PROXY=http://" ++ cfgGetD cfg "proxy" ++ ":" ++
        cfgGetD cfg "proxyport", ?_, ?_⟩
      · by_cases hcac : cacertsPresent = true <;>
          simp [build_docker_command, hcond, hcac]
      · have hsplit : ("HTTP_PROXY=http://" : String) =
            "HTTP_PROXY=" ++ "http://" := by decide
        rw [hsplit]
        simp only [String.append_assoc]
        exact lineStartsWith_concat_true _ _
    · refine ⟨"HTTPS_PROXY=http://" ++ cfgGetD cfg "proxy" ++ ":" ++
        cfgGetD cfg "proxyport", ?_, ?_⟩
      · by_cases hcac : cacertsPresent = true <;>
          simp [build_docker_command, hcond, hcac]
      · have hsplit : ("HTTPS_PROXY=http://" : String) =
            "HTTPS_PROXY=" ++ "http://" := by decide
        rw [hsplit]
        simp only [String.append_assoc]
        exact lineStartsWith_concat_true _ _
  · refine ⟨iff_of_false ?_ hcond, iff_of_false ?_ hcond⟩
    · rintro ⟨e, he, hpre⟩
      have hfalse : lineStartsWith e "HTTP_PROXY=" = false := by
        simp only [build_docker_command] at he
        rw [if_neg hcond] at he
        by_cases hcac : cacertsPresent = true <;>
          · simp only [hcac, if_true, if_false, Bool.false_eq_true,
              List.cons_append, List.nil_append] at he
            fin_cases he <;>
              first
                | decide
                | exact hmount _ _ (by decide) (by decide) rfl
                | exact hex1
      rw [hfalse] at hpre
      simp at hpre
    · rintro ⟨e, he, hpre⟩
      have hfalse : lineStartsWith e "HTTPS_PROXY=" = false := by
        simp only [build_docker_command] at he
        rw [if_neg hcond] at he
        by_cases hcac : cacertsPresent = true <;>
          · simp only [hcac, if_true, if_false, Bool.false_eq_true,
              List.cons_append, List.nil_append] at he
            fin_cases he <;>
              first
                | decide
                | exact hmount _ _ (by decide) (by decide) rfl
                | exact hex2
      rw [hfalse] at hpre
      simp at hpre

/-- Witness for C4's amended theorem at a concrete configuration: with the
proxy configured and the executor `ArchiveJdbcToSnowflake`, both uppercase
entries are present; with the executor `QueryExtractExecutor`, neither is. -/
theorem proxy_env_vars_iff_witness :
    (('=' ∉ ("/w" : String).data) ∧
     lineStartsWith "ArchiveJdbcToSnowflake" "HTTP_PROXY=" = false ∧
     lineStartsWith "ArchiveJdbcToSnowflake" "HTTPS_PROXY=" = false ∧
     lineStartsWith "QueryExtractExecutor" "HTTP_PROXY=" = false ∧
     lineStartsWith "QueryExtractExecutor" "HTTPS_PROXY=" = false) ∧
    (((∃ e ∈ build_docker_command cfgProxy "/w" true "ArchiveJdbcToSnowflake",
         lineStartsWith e "HTTP_PROXY=" = true) ↔
       ("ArchiveJdbcToSnowflake" ∈ archiveExecutors ∧
         cfgGetD cfgProxy "proxy" ≠ "" ∧ cfgGetD cfgProxy "proxyport" ≠ "")) ∧
     ((∃ e ∈ build_docker_command cfgProxy "/w" true "ArchiveJdbcToSnowflake",
         lineStartsWith e "HTTPS_PROXY=" = true) ↔
       ("ArchiveJdbcToSnowflake" ∈ archiveExecutors ∧
         cfgGetD cfgProxy "proxy" ≠ "" ∧ cfgGetD cfgProxy "proxyport" ≠ ""))) ∧
    (((∃ e ∈ build_docker_command cfgProxy "/w" true "QueryExtractExecutor",
         lineStartsWith e "HTTP_PROXY=" = true) ↔
       ("QueryExtractExecutor" ∈ archiveExecutors ∧
         cfgGetD cfgProxy "proxy" ≠ "" ∧ cfgGetD cfgProxy "proxyport" ≠ "")) ∧
     ((∃ e ∈ build_docker_command cfgProxy "/w" true "QueryExtractExecutor",
         lineStartsWith e "HTTPS_PROXY=" = true) ↔
       ("QueryExtractExecutor" ∈ archiveExecutors ∧
         cfgGetD cfgProxy "proxy" ≠ "" ∧ cfgGetD cfgProxy "proxyport" ≠ ""))) :=
  ⟨⟨by decide, by decide, by decide, by decide, by decide⟩,
   proxy_env_vars_iff cfgProxy "/w" true "ArchiveJdbcToSnowflake"
     (by decide) (by decide) (by decide),
   proxy_env_vars_iff cfgProxy "/w" true "QueryExtractExecutor"
     (by decide) (by decide) (by decide)⟩

/-- C4, counterexample: with a proxy host and port configured and the
warehouse-archive executor `ArchiveJdbcToSnowflake` selected — i.e. exactly
the condition under which the claim asserts that the lowercase
`http_proxy`/`https_proxy` variants are injected — the invocation vector
contains the uppercase variables but no entry starting with `http_proxy=`
or `https_proxy=`. -/
theorem proxy_lowercase_variants_absent :
    ("ArchiveJdbcToSnowflake" ∈ archiveExecutors ∧
     cfgGetD cfgProxy "proxy" ≠ "" ∧ cfgGetD cfgProxy "proxyport" ≠ "") ∧
    "HTTP_PROXY=http://ph:80" ∈
      build_docker_command cfgProxy "/w" false "ArchiveJdbcToSnowflake" ∧
    "HTTPS_PROXY=http://ph:80" ∈
      build_docker_command cfgProxy "/w" false "ArchiveJdbcToSnowflake" ∧
    (build_docker_command cfgProxy "/w" false "ArchiveJdbcToSnowflake").all
      (fun e => !(lineStartsWith e "http_proxy=") && !(lineStartsWith e "https_proxy=")) = true := by
  decide

end AtScaleGatling
